import Mathlib

/-!
Verification development for the sales-agents repository.

Shallow embedding of the repository's tool-dispatch layer and
conversation/metrics tracker:

  * `retry_on_error`            — src/tools/crm_tool.py, lines 11-41
  * `MockCRMServer` operations  — src/mcp_servers/mock_crm_server.py
  * `BaseMCPServer` validators  — src/mcp_servers/base_mcp.py
  * `CRMTool` cache layer       — src/tools/crm_tool.py
  * `MCPTools.call_tool`        — src/agents/mcp_tools.py
  * `MCPServerFactory`          — src/utils/mcp_server_factory.py
  * `SwarmOrchestrator`         — src/orchestrator/swarm_orchestrator.py
  * `Conversation`              — src/models/conversation.py

Machine floats (time.time timestamps, retry delays) are modelled as
rationals; clocks are passed explicitly to the operations that read them.
-/

namespace SalesAgents

/-! ## Retry decorator (src/tools/crm_tool.py, `retry_on_error`)

The decorated coroutine is modelled as `f : Nat → Except E A`: the outcome
of its (i+1)-st invocation.  `retryAux` mirrors the `for attempt in
range(max_retries)` loop; it returns the final outcome, the number of
invocations of `f`, and the list of back-off sleeps performed (in seconds,
in order). -/

def retryAux {E A : Type} (f : Nat → Except E A) (backoff : ℚ)
    (attempt : Nat) (remaining : Nat) (curDelay : ℚ) (sleeps : List ℚ) :
    Except E A × Nat × List ℚ :=
  match f attempt with
  | .ok a => (.ok a, attempt + 1, sleeps)
  | .error e =>
    match remaining with
    | 0 => (.error e, attempt + 1, sleeps)
    | r + 1 =>
      retryAux f backoff (attempt + 1) r (curDelay * backoff) (sleeps ++ [curDelay])

/-- `retry_on_error(max_retries, delay, backoff)` applied to `f`.  For
`max_retries = 0` the Python wrapper would fall through the loop and
`raise last_error` with `last_error = None`; we return `none` for that
degenerate configuration (every call site uses the default 3). -/
def retry_on_error {E A : Type} (max_retries : Nat) (delay backoff : ℚ)
    (f : Nat → Except E A) : Option (Except E A × Nat × List ℚ) :=
  match max_retries with
  | 0 => none
  | n + 1 => some (retryAux f backoff 0 n delay [])

/-! ## Lead model (src/models/lead.py) -/

/-- `LeadStatus` (src/models/lead.py). -/
inductive LeadStatus
  | new | qualified | contacted | presentation | negotiation
  | closed_won | closed_lost | nurturing
deriving DecidableEq, Repr

/-- The `.value` of a `LeadStatus` member. -/
def LeadStatus.value : LeadStatus → String
  | .new => "new"
  | .qualified => "qualified"
  | .contacted => "contacted"
  | .presentation => "presentation"
  | .negotiation => "negotiation"
  | .closed_won => "closed_won"
  | .closed_lost => "closed_lost"
  | .nurturing => "nurturing"

/-- `LeadStatus(s)`: Python enum construction from a value string; `none`
models the `ValueError` raised for an unknown value. -/
def LeadStatus.ofValue (s : String) : Option LeadStatus :=
  if s = "new" then some .new
  else if s = "qualified" then some .qualified
  else if s = "contacted" then some .contacted
  else if s = "presentation" then some .presentation
  else if s = "negotiation" then some .negotiation
  else if s = "closed_won" then some .closed_won
  else if s = "closed_lost" then some .closed_lost
  else if s = "nurturing" then some .nurturing
  else none

/-- `Lead` (src/models/lead.py), restricted to the fields the modelled
operations read or write.  `updated_at` is a rational timestamp. -/
structure Lead where
  id : String
  email : Option String := none
  name : Option String := none
  company : Option String := none
  phone : Option String := none
  status : LeadStatus := .new
  source : Option String := none
  notes : Option String := none
  updated_at : ℚ := 0
deriving DecidableEq, Repr

/-! ## Mock CRM server (src/mcp_servers/mock_crm_server.py)

The Python operations return plain dicts whose key sets differ per branch.
`CRMResult` models the dict: a field of value `none` is a key that is
absent from the returned dict; `lead_id`/`email` echo keys carry the
(possibly `None`-valued) parameter, hence `Option (Option String)`. -/

structure CRMResult where
  success : Option Bool := none
  error : Option String := none
  hint : Option String := none
  lead : Option Lead := none
  lead_id : Option (Option String) := none
  email : Option (Option String) := none
  new_status : Option String := none
  updated_at : Option ℚ := none
  details : Option String := none
deriving DecidableEq, Repr

/-- Python truthiness test for an optional string: `not x` is true for
`None` and for the empty string. -/
def strFalsy : Option String → Bool
  | none => true
  | some s => s.isEmpty

/-- The CRM lead store: insertion-ordered association list mirroring the
`self._leads` dict. -/
abbrev LeadStore := List (String × Lead)

def leadLookup (store : LeadStore) (lid : String) : Option Lead :=
  match store.find? (fun kv => kv.1 = lid) with
  | some kv => some kv.2
  | none => none

/-- The three sample leads installed by `_initialize_mock_data`. -/
def initialLeads : LeadStore :=
  [ ("lead_001",
     { id := "lead_001", email := some "john.doe@example.com",
       name := some "John Doe", company := some "Acme Corp",
       phone := some "+1-555-0101", status := .new, source := some "website" }),
    ("lead_002",
     { id := "lead_002", email := some "jane.smith@example.com",
       name := some "Jane Smith", company := some "TechStart Inc",
       phone := some "+1-555-0102", status := .qualified, source := some "referral" }),
    ("lead_003",
     { id := "lead_003", email := some "bob.wilson@example.com",
       name := some "Bob Wilson", company := some "Global Solutions",
       phone := some "+1-555-0103", status := .presentation, source := some "event" }) ]

/-- `MockCRMServer._get_lead_info` (src/mcp_servers/mock_crm_server.py,
lines 128-168). -/
def get_lead_info (store : LeadStore) (lid email : Option String) : CRMResult :=
  if strFalsy lid && strFalsy email then
    { success := some false,
      error := some "É necessário fornecer \x27lead_id\x27 ou \x27email\x27 para buscar informações do lead",
      hint := some "Forneça pelo menos um dos seguintes parâmetros: lead_id, email" }
  else
    let found : Option (Option Lead) :=
      if !strFalsy lid then
        some (leadLookup store (lid.getD ""))
      else if !strFalsy email then
        some ((store.map Prod.snd).find? (fun l => l.email == email))
      else
        none
    match found with
    | none =>
      -- unreachable defensive branch in the source
      { success := some false, error := some "Erro ao buscar lead",
        lead_id := some lid, email := some email }
    | some none =>
      { error := some "Lead not found", lead_id := some lid, email := some email }
    | some (some l) =>
      { success := some true, lead := some l }

/-- `MockCRMServer._update_lead_status` (src/mcp_servers/mock_crm_server.py,
lines 170-227).  Returns the result dict together with the updated lead
store; `now` stands for `datetime.utcnow()`. -/
def update_lead_status (store : LeadStore) (lid status : String)
    (notes : Option String) (now : ℚ) : CRMResult × LeadStore :=
  if lid.isEmpty then
    ({ success := some false,
       error := some "Parâmetro obrigatório \x27lead_id\x27 não fornecido",
       hint := some "Forneça o ID do lead que deseja atualizar" }, store)
  else if status.isEmpty then
    ({ success := some false,
       error := some "Parâmetro obrigatório \x27status\x27 não fornecido",
       hint := some "Forneça o novo status do lead" }, store)
  else
    match leadLookup store lid with
    | none => ({ error := some "Lead not found", lead_id := some (some lid) }, store)
    | some l =>
      match LeadStatus.ofValue status with
      | none =>
        ({ error := some ("Invalid status: " ++ status),
           details := some ("\x27" ++ status ++ "\x27 is not a valid LeadStatus") }, store)
      | some st =>
        let notes1 : Option String :=
          match notes with
          | none => l.notes
          | some n =>
            if n.isEmpty then l.notes
            else match l.notes with
              | some old => if old.isEmpty then some n else some (old ++ "\n" ++ n)
              | none => some n
        let l1 : Lead := { l with status := st, notes := notes1, updated_at := now }
        ({ success := some true, lead_id := some (some lid), new_status := some status,
           updated_at := some now },
         store.map (fun kv => if kv.1 = lid then (kv.1, l1) else kv))

/-! ### C3: relation between `success` and `error` in CRM results -/

/-- C3 (counterexample): the claim "every capability result has `success`
set to `false` iff `error` is set; a lookup for a nonexistent record
returns a result where the `error` field is present and `success` is
present and false" fails on the code: `_get_lead_info` for the
nonexistent id `lead_999` returns `{"error": "Lead not found", ...}` with
no `success` key at all. -/
theorem crm_success_error_claim_counterexample :
    (get_lead_info initialLeads (some "lead_999") none).error = some "Lead not found"
    ∧ (get_lead_info initialLeads (some "lead_999") none).success ≠ some false := by
  decide

/-- C3 (amended): in every branch of `_get_lead_info` and
`_update_lead_status`, `success` is set to `true` iff no `error` field is
set; and a lookup for a nonexistent record returns a result whose `error`
field is present (`"Lead not found"`) and whose `success` key is absent
(so it is never `true`; a reader defaulting the missing key observes a
falsy value). -/
theorem crm_success_iff_no_error :
    (∀ (store : LeadStore) (lid email : Option String),
      ((get_lead_info store lid email).success = some true
        ↔ (get_lead_info store lid email).error = none))
    ∧ (∀ (store : LeadStore) (lid status : String) (notes : Option String) (now : ℚ),
      ((update_lead_status store lid status notes now).1.success = some true
        ↔ (update_lead_status store lid status notes now).1.error = none))
    ∧ (∀ (store : LeadStore) (lid : String), ¬lid.isEmpty → leadLookup store lid = none →
      (get_lead_info store (some lid) none).error = some "Lead not found"
      ∧ (get_lead_info store (some lid) none).success = none) := by
  refine ⟨?_, ?_, ?_⟩
  · intro store lid email
    unfold get_lead_info
    by_cases h1 : (strFalsy lid && strFalsy email) = true
    · simp [h1]
    · by_cases h2 : strFalsy lid = true
      · have h3 : strFalsy email = false := by
          cases he : strFalsy email
          · rfl
          · exact absurd (by simp [h2, he]) h1
        cases hf : (store.map Prod.snd).find? (fun l => l.email == email) <;>
          simp [h1, h2, h3, hf]
      · simp only [Bool.not_eq_true] at h2
        cases hl : leadLookup store (lid.getD "") <;> simp [h1, h2, hl]
  · intro store lid status notes now
    unfold update_lead_status
    by_cases h1 : lid.isEmpty <;> by_cases h2 : status.isEmpty <;>
      simp only [h1, h2, if_true, if_false] <;> try simp
    cases hl : leadLookup store lid <;> simp only [hl] <;> try simp
    cases hs : LeadStatus.ofValue status <;> simp [hs]
  · intro store lid hne hl
    have h2 : strFalsy (some lid) = false := by
      simpa [strFalsy] using hne
    have hg : lid = (some lid : Option String).getD "" := rfl
    unfold get_lead_info
    simp [h2, ← hg, hl]

/-- Witness for `crm_success_iff_no_error` at concrete inputs. -/
theorem crm_success_iff_no_error_witness :
    ((get_lead_info initialLeads (some "lead_001") none).success = some true
      ↔ (get_lead_info initialLeads (some "lead_001") none).error = none)
    ∧ ((get_lead_info initialLeads (some "lead_999") none).error = some "Lead not found"
      ∧ (get_lead_info initialLeads (some "lead_999") none).success = none) :=
  ⟨crm_success_iff_no_error.1 initialLeads (some "lead_001") none,
   crm_success_iff_no_error.2.2 initialLeads "lead_999" (by decide) (by decide)⟩

/-! ## BaseMCPServer parameter validation (src/mcp_servers/base_mcp.py) -/

/-- Python `", ".join(l)`. -/
def joinComma : List String → String
  | [] => ""
  | [x] => x
  | x :: y :: xs => x ++ ", " ++ joinComma (y :: xs)

/-- The parameter names that `_validate_required_params` reports missing:
`param not in params or params[param] is None`. -/
def missingParams (params : List (String × Option String))
    (required : List String) : List String :=
  required.filter (fun p =>
    match params.find? (fun kv => kv.1 = p) with
    | none => true
    | some kv => kv.2 = none)

/-- `BaseMCPServer._validate_required_params` (src/mcp_servers/base_mcp.py,
lines 105-128).  Parameters map to optional values (`none` models a
`None`-valued key).  Returns the `ValueError` message, or `none` when all
required parameters are present and non-null. -/
def validate_required_params (params : List (String × Option String))
    (required : List String) (tool_name : String) : Option String :=
  let missing := missingParams params required
  if missing.isEmpty then none
  else some ("Parâmetros obrigatórios faltando para tool \x27" ++ tool_name ++ "\x27: "
    ++ joinComma missing
    ++ ". Parâmetros fornecidos: "
    ++ (if params.isEmpty then "nenhum" else joinComma (params.map Prod.fst))
    ++ ". Parâmetros esperados: " ++ joinComma required)

/-! ## MCPTools dispatcher (src/agents/mcp_tools.py) -/

/-- Python `str.lower()`. -/
def pyLower (s : String) : String := ⟨s.data.map Char.toLower⟩

/-- Python `sub in s` on strings: contiguous-substring test. -/
def pyIn (sub s : String) : Bool := decide (sub.data <:+: s.data)

/-- `MCPTool` configuration (src/models/agent_config.py): tool name, MCP
server URL and default parameters (`parameters=None` modelled as `[]`). -/
structure MCPTool where
  name : String
  mcp_url : String
  parameters : List (String × String) := []
deriving DecidableEq, Repr

/-- The similar-name scan of `MCPTools.call_tool` (src/agents/mcp_tools.py,
lines 57-62): case-insensitive substring match in either direction. -/
def similar_tools (available : List String) (tool_name : String) : List String :=
  available.filter (fun t =>
    pyIn (pyLower tool_name) (pyLower t) || pyIn (pyLower t) (pyLower tool_name))

/-- The `ValueError` message built by `MCPTools.call_tool` for an unknown
tool name (src/agents/mcp_tools.py, lines 64-70). -/
def tool_not_found_msg (available : List String) (tool_name : String) : String :=
  let similar := similar_tools available tool_name
  let base := "Tool \x27" ++ tool_name ++ "\x27 não encontrada."
  if !similar.isEmpty then
    base ++ " Tools similares disponíveis: " ++ String.intercalate ", " (similar.take 5)
  else if !available.isEmpty then
    base ++ " Tools disponíveis: " ++ String.intercalate ", " (available.take 10)
  else
    base ++ " Nenhuma tool disponível."

/-- `MCPTools._get_server_name_from_url` (src/agents/mcp_tools.py, lines
196-226): server identity inferred from a port substring of the URL. -/
def get_server_name_from_url (url : String) : String :=
  if pyIn "8001" url then "mock_crm"
  else if pyIn "8002" url then "mock_catalog"
  else if pyIn "8003" url then "mock_analytics"
  else if pyIn "8005" url then "mock_ifood"
  else if pyIn "8006" url then "mock_restaurant"
  else if pyIn "8007" url then "mock_recommendation"
  else if pyIn "8008" url then "mock_contract"
  else if pyIn "8009" url then "mock_pricing"
  else if pyIn "8010" url then "mock_qualification"
  else "unknown"

/-- Python dict merge `{**base, **override}`: base keys first (overridden
values win), then the override-only keys in order. -/
def dictMerge (base override : List (String × String)) : List (String × String) :=
  base.map (fun kv =>
    match override.find? (fun o => o.1 = kv.1) with
    | some o => (kv.1, o.2)
    | none => kv)
  ++ override.filter (fun o => !(base.any (fun kv => kv.1 == o.1)))

/-- Outcomes of the `httpx` POST to `{mcp_url}/mcp/call`, one constructor
per `except` clause of `MCPTools.call_tool`. -/
inductive HttpResp (R : Type)
  | success (r : R)
  | connectError (msg : String)
  | timeoutError (msg : String)
  | statusError (code : Nat) (msg : String)
  | httpError (msg : String)
  | otherError (tyName msg : String)

/-- `MCPTools.call_tool` (src/agents/mcp_tools.py, lines 35-194).  The
in-process server table and the network are abstracted as oracles
(`direct`, `http`); the returned `Nat` counts how many provider/network
invocations were made (direct attempt and HTTP attempt each count one).
`Except.error` carries the `ValueError`/`RuntimeError` message. -/
def call_tool {R : Type} (tools : List MCPTool) (servers : List String)
    (direct : String → String → List (String × String) → Except String R)
    (http : String → List (String × String) → HttpResp R)
    (timeout_value : ℚ) (tool_name : String)
    (parameters : List (String × String)) : Except String R × Nat :=
  match tools.find? (fun t => t.name = tool_name) with
  | none => (.error (tool_not_found_msg (tools.map MCPTool.name) tool_name), 0)
  | some tool =>
    let params := if tool.parameters.isEmpty then parameters
                  else dictMerge tool.parameters parameters
    let httpPath : Nat → Except String R × Nat := fun calls =>
      match http tool.mcp_url params with
      | .success r => (.ok r, calls)
      | .connectError m =>
        (.error ("Falha ao conectar com servidor MCP para tool \x27" ++ tool_name
          ++ "\x27: " ++ m ++ "\nURL: " ++ tool.mcp_url
          ++ "\nVerifique se o servidor MCP está rodando."), calls)
      | .timeoutError _ =>
        (.error ("Timeout ao chamar tool \x27" ++ tool_name ++ "\x27 (timeout: "
          ++ toString timeout_value
          ++ "s). O servidor MCP pode estar sobrecarregado ou inacessível."), calls)
      | .statusError code m =>
        (.error ("Erro HTTP " ++ toString code ++ " ao chamar tool \x27"
          ++ tool_name ++ "\x27: " ++ m), calls)
      | .httpError m =>
        (.error ("Falha ao chamar tool " ++ tool_name ++ ": " ++ m), calls)
      | .otherError _ m =>
        (.error ("Erro inesperado ao chamar tool " ++ tool_name ++ ": " ++ m), calls)
    let server_name := get_server_name_from_url tool.mcp_url
    if servers.contains server_name then
      match direct server_name tool_name params with
      | .ok r => (.ok r, 1)
      | .error _ => httpPath 2
    else
      httpPath 1

/-! ## CRMTool cache layer (src/tools/crm_tool.py) -/

/-- `CRMTool` mutable state: the TTL cache `self._cache` (key, value,
storedAt) plus an instrumentation counter of calls made to the underlying
`MockCRMServer`. -/
structure CRMToolState where
  cache : List (String × CRMResult × ℚ) := []
  serverCalls : Nat := 0
deriving DecidableEq, Repr

def CRMToolState.init : CRMToolState := {}

def cacheLookup (c : List (String × CRMResult × ℚ)) (k : String) :
    Option (CRMResult × ℚ) :=
  (c.find? (fun e => e.1 = k)).map (fun e => e.2)

/-- Python dict assignment `self._cache[key] = value`: replace the entry
in place if the key exists, else append. -/
def cacheSet : List (String × CRMResult × ℚ) → String → CRMResult × ℚ →
    List (String × CRMResult × ℚ)
  | [], k, v => [(k, v)]
  | e :: tl, k, v => if e.1 = k then (k, v) :: tl else e :: cacheSet tl k v

/-- `json.dumps` of an optional string value. -/
def jsonStr : Option String → String
  | none => "null"
  | some s => "\"" ++ s ++ "\""

/-- `CRMTool._get_cache_key("get_lead_info", {"lead_id": …, "email": …})`
(src/tools/crm_tool.py, lines 75-88): `json.dumps(params, sort_keys=True)`
sorts the keys (`email` before `lead_id`). -/
def get_cache_key_lead_info (lid email : Option String) : String :=
  "get_lead_info:\x7b\"email\": " ++ jsonStr email
    ++ ", \"lead_id\": " ++ jsonStr lid ++ "\x7d"

/-- `CRMTool._is_cache_valid` (src/tools/crm_tool.py, lines 90-104). -/
def is_cache_valid (cache_enabled : Bool) (cache_ttl : ℚ)
    (now cached_time : ℚ) : Bool :=
  cache_enabled && decide (now - cached_time < cache_ttl)

/-- One invocation of the body of `CRMTool.get_lead_info`
(src/tools/crm_tool.py, lines 106-150), i.e. the function wrapped by
`retry_on_error`: parameter validation, cache probe, then the in-memory
`MockCRMServer.call("get_lead_info", …)` (which never raises for these
parameters, so the `except`-to-`RuntimeError` wrapping is not exercised),
then cache store.  `now` stands for `time.time()`. -/
def crm_get_lead_info_once (cache_enabled : Bool) (cache_ttl : ℚ)
    (leads : LeadStore) (st : CRMToolState) (lid email : Option String)
    (now : ℚ) : Except String CRMResult × CRMToolState :=
  if strFalsy lid && strFalsy email then
    (.error "Either lead_id or email must be provided", st)
  else
    let key := get_cache_key_lead_info lid email
    let hit : Option CRMResult :=
      match (if cache_enabled then cacheLookup st.cache key else none) with
      | some (v, t) => if is_cache_valid cache_enabled cache_ttl now t then some v else none
      | none => none
    match hit with
    | some v => (.ok v, st)
    | none =>
      let result := get_lead_info leads lid email
      let cache1 := if cache_enabled then cacheSet st.cache key (result, now) else st.cache
      (.ok result, { cache := cache1, serverCalls := st.serverCalls + 1 })

/-- `CRMTool.get_lead_info` as called: the body wrapped by
`@retry_on_error(max_retries=3, delay=1.0, backoff=2.0)`.  Each attempt
re-runs the body from the same pre-call state (a failed attempt performs
no state mutation). -/
def crm_get_lead_info_call (cache_enabled : Bool) (cache_ttl : ℚ)
    (leads : LeadStore) (st : CRMToolState) (lid email : Option String)
    (now : ℚ) : Option (Except String (CRMResult × CRMToolState) × Nat × List ℚ) :=
  retry_on_error 3 1 2 (fun _ =>
    match crm_get_lead_info_once cache_enabled cache_ttl leads st lid email now with
    | (.ok r, st1) => .ok (r, st1)
    | (.error e, _) => .error e)

/-! ## Helper lemmas -/

theorem cacheLookup_cacheSet_self (c : List (String × CRMResult × ℚ))
    (k : String) (v : CRMResult × ℚ) :
    cacheLookup (cacheSet c k v) k = some v := by
  induction c with
  | nil => simp [cacheSet, cacheLookup, List.find?]
  | cons e tl ih =>
    by_cases he : e.1 = k
    · simp [cacheSet, cacheLookup, he, List.find?]
    · simpa [cacheSet, cacheLookup, he, List.find?] using ih

theorem data_infix_joinComma {x : String} {l : List String} (hx : x ∈ l) :
    x.data <:+: (joinComma l).data := by
  induction l with
  | nil => cases hx
  | cons y ys ih =>
    cases ys with
    | nil =>
      rcases List.mem_singleton.mp hx with rfl
      exact List.infix_rfl
    | cons z zs =>
      rcases List.mem_cons.mp hx with rfl | hx2
      · exact ⟨[], (", " ++ joinComma (z :: zs)).data, by
          simp [joinComma, String.data_append]⟩
      · obtain ⟨s, t, hst⟩ := ih hx2
        refine ⟨(y ++ ", ").data ++ s, t, ?_⟩
        simp only [joinComma, String.data_append, List.append_assoc]
        rw [← List.append_assoc s x.data t, hst]

/-! ### C6: retry policy -/

/-- C6: under `retry_on_error` with the default maximum of 3 attempts,
initial delay 1s and multiplier 2.0: a call that fails on its first two
invocations and succeeds on the third returns the successful result after
exactly 3 invocations; a call that fails on every invocation is invoked
exactly 3 times, sleeps 1s then 2s between consecutive invocations, and
re-raises the final error. -/
theorem retry_policy_spec :
    (∀ {E A : Type} (f : Nat → Except E A) (e0 e1 : E) (a : A),
      f 0 = .error e0 → f 1 = .error e1 → f 2 = .ok a →
      retry_on_error 3 1 2 f = some (.ok a, 3, [1, 2]))
    ∧ (∀ {E A : Type} (f : Nat → Except E A) (e0 e1 e2 : E),
      f 0 = .error e0 → f 1 = .error e1 → f 2 = .error e2 →
      retry_on_error 3 1 2 f = some (.error e2, 3, [1, 2])) := by
  constructor
  · intro E A f e0 e1 a h0 h1 h2
    norm_num [retry_on_error, retryAux, h0, h1, h2]
  · intro E A f e0 e1 e2 h0 h1 h2
    norm_num [retry_on_error, retryAux, h0, h1, h2]

/-- Witness for `retry_policy_spec`: a concrete fail-twice-then-succeed
call and a concrete always-failing call. -/
theorem retry_policy_spec_witness :
    retry_on_error 3 1 2
        (fun n => if n < 2 then (Except.error "boom" : Except String Nat) else .ok 42)
      = some (.ok 42, 3, [1, 2])
    ∧ retry_on_error 3 1 2 (fun _ => (Except.error "down" : Except String Nat))
      = some (.error "down", 3, [1, 2]) :=
  ⟨retry_policy_spec.1 _ "boom" "boom" 42 rfl rfl rfl,
   retry_policy_spec.2 _ "down" "down" "down" rfl rfl rfl⟩

/-! ### C5: missing-required-parameter behaviour -/

/-- C5 (counterexample): the claim that a missing-required-parameter
failure "is never retried … the client raises the validation error after
exactly one invocation of the underlying operation logic, with no backoff
sleeps" fails on the code: `CRMTool.get_lead_info` raises its `ValueError`
inside the `retry_on_error`-wrapped body, so calling it with neither
`lead_id` nor `email` invokes the body 3 times, with backoff sleeps of 1s
and 2s, before the error propagates. -/
theorem crm_missing_param_retried_counterexample :
    crm_get_lead_info_call true 3600 initialLeads CRMToolState.init none none 0
      = some (.error "Either lead_id or email must be provided", 3, [1, 2])
    ∧ (3 : Nat) ≠ 1 ∧ ([1, 2] : List ℚ) ≠ [] := by
  have hbody : crm_get_lead_info_once true 3600 initialLeads CRMToolState.init
      none none 0
      = (.error "Either lead_id or email must be provided", CRMToolState.init) := by
    unfold crm_get_lead_info_once
    simp [strFalsy]
  refine ⟨?_, by decide, by decide⟩
  unfold crm_get_lead_info_call
  norm_num [retry_on_error, retryAux, hbody]

/-- C5 (amended): a missing-required-parameter failure in
`CRMTool.get_lead_info` is a caller error raised before the CRM server is
consulted (the body performs no server call and no state mutation), but it
is retried like any other failure: the wrapped body runs exactly 3 times
with backoff sleeps 1s then 2s and the `ValueError` is then re-raised; the
message is the fixed string naming the two acceptable parameters.
Separately, `BaseMCPServer._validate_required_params` builds messages that
enumerate the missing, the provided, and the expected parameter names. -/
theorem crm_missing_param_behavior :
    (∀ (ce : Bool) (ttl : ℚ) (leads : LeadStore) (st : CRMToolState)
       (lid email : Option String) (now : ℚ),
      (strFalsy lid && strFalsy email) = true →
      crm_get_lead_info_call ce ttl leads st lid email now
        = some (.error "Either lead_id or email must be provided", 3, [1, 2])
      ∧ (crm_get_lead_info_once ce ttl leads st lid email now).2 = st)
    ∧ (∀ (params : List (String × Option String)) (required : List String)
       (tool_name : String) (msg : String),
      validate_required_params params required tool_name = some msg →
      (∀ p ∈ missingParams params required, p.data <:+: msg.data)
      ∧ (∀ kv ∈ params, kv.1.data <:+: msg.data)
      ∧ (∀ p ∈ required, p.data <:+: msg.data)) := by
  constructor
  · intro ce ttl leads st lid email now h
    have hbody : crm_get_lead_info_once ce ttl leads st lid email now
        = (.error "Either lead_id or email must be provided", st) := by
      unfold crm_get_lead_info_once
      simp [h]
    refine ⟨?_, by rw [hbody]⟩
    unfold crm_get_lead_info_call
    norm_num [retry_on_error, retryAux, hbody]
  · intro params required tool_name msg hmsg
    by_cases hm : (missingParams params required).isEmpty = true
    · exact absurd hmsg (by unfold validate_required_params; simp [hm])
    · have hm2 : (missingParams params required).isEmpty = false := by
        cases h : (missingParams params required).isEmpty
        · rfl
        · exact absurd h hm
      have hval : validate_required_params params required tool_name
          = some ("Parâmetros obrigatórios faltando para tool \x27" ++ tool_name ++ "\x27: "
            ++ joinComma (missingParams params required)
            ++ ". Parâmetros fornecidos: "
            ++ (if params.isEmpty then "nenhum" else joinComma (params.map Prod.fst))
            ++ ". Parâmetros esperados: " ++ joinComma required) := by
        unfold validate_required_params
        simp [hm2]
      have hmsg2 := Option.some.inj (hval.symm.trans hmsg)
      subst hmsg2
      refine ⟨?_, ?_, ?_⟩
      · intro p hp
        refine (data_infix_joinComma hp).trans
          ⟨("Parâmetros obrigatórios faltando para tool \x27" ++ tool_name ++ "\x27: ").data,
           (". Parâmetros fornecidos: "
             ++ (if params.isEmpty then "nenhum" else joinComma (params.map Prod.fst))
             ++ ". Parâmetros esperados: " ++ joinComma required).data, ?_⟩
        simp [String.data_append, List.append_assoc]
      · intro kv hkv
        have hne : params.isEmpty = false := by
          cases params with
          | nil => cases hkv
          | cons a tl => rfl
        have hmem : kv.1 ∈ params.map Prod.fst := List.mem_map_of_mem _ hkv
        refine (data_infix_joinComma hmem).trans
          ⟨("Parâmetros obrigatórios faltando para tool \x27" ++ tool_name ++ "\x27: "
             ++ joinComma (missingParams params required)
             ++ ". Parâmetros fornecidos: ").data,
           (". Parâmetros esperados: " ++ joinComma required).data, ?_⟩
        simp [hne, String.data_append, List.append_assoc]
      · intro p hp
        refine (data_infix_joinComma hp).trans
          ⟨("Parâmetros obrigatórios faltando para tool \x27" ++ tool_name ++ "\x27: "
             ++ joinComma (missingParams params required)
             ++ ". Parâmetros fornecidos: "
             ++ (if params.isEmpty then "nenhum" else joinComma (params.map Prod.fst))
             ++ ". Parâmetros esperados: ").data, [], ?_⟩
        simp [String.data_append, List.append_assoc]

/-- The message `_validate_required_params` produces for a concrete
`update_lead_status`-style call that provides only `email`. -/
def missingMsgExample : String :=
  (validate_required_params [("email", some "a@b.com")] ["lead_id", "email"]
    "get_lead_info").getD ""

/-- Witness for `crm_missing_param_behavior` at concrete inputs. -/
theorem crm_missing_param_behavior_witness :
    (crm_get_lead_info_call true 3600 initialLeads CRMToolState.init (some "") none 5
       = some (.error "Either lead_id or email must be provided", 3, [1, 2])
     ∧ (crm_get_lead_info_once true 3600 initialLeads CRMToolState.init (some "") none 5).2
       = CRMToolState.init)
    ∧ ((∀ p ∈ missingParams [("email", some "a@b.com")] ["lead_id", "email"],
          p.data <:+: missingMsgExample.data)
       ∧ (∀ kv ∈ [("email", some "a@b.com")], kv.1.data <:+: missingMsgExample.data)
       ∧ (∀ p ∈ ["lead_id", "email"], p.data <:+: missingMsgExample.data)) :=
  ⟨crm_missing_param_behavior.1 true 3600 initialLeads CRMToolState.init
      (some "") none 5 (by decide),
   crm_missing_param_behavior.2 [("email", some "a@b.com")] ["lead_id", "email"]
      "get_lead_info" missingMsgExample rfl⟩

/-! ### C7: cache idempotence within TTL and expiry -/

/-- C7: for the cached read operation `get_lead_info` with caching
enabled: a first call on a cold key invokes the CRM server and stores the
result at the call time; a second identical call within the TTL window
returns the identical cached result with no further server invocation and
no state change; a second identical call at age `>= TTL` never returns
the stale entry — it re-invokes the server and stores a fresh entry
stamped with the new call time. -/
theorem crm_cache_ttl_spec (ttl : ℚ) (leads : LeadStore) (st0 : CRMToolState)
    (lid email : Option String) (t1 t2 : ℚ)
    (hv : (strFalsy lid && strFalsy email) = false)
    (hcold : cacheLookup st0.cache (get_cache_key_lead_info lid email) = none) :
    crm_get_lead_info_once true ttl leads st0 lid email t1
      = (.ok (get_lead_info leads lid email),
         { cache := cacheSet st0.cache (get_cache_key_lead_info lid email)
             (get_lead_info leads lid email, t1),
           serverCalls := st0.serverCalls + 1 })
    ∧ (t2 - t1 < ttl →
        crm_get_lead_info_once true ttl leads
          { cache := cacheSet st0.cache (get_cache_key_lead_info lid email)
              (get_lead_info leads lid email, t1),
            serverCalls := st0.serverCalls + 1 } lid email t2
        = (.ok (get_lead_info leads lid email),
           { cache := cacheSet st0.cache (get_cache_key_lead_info lid email)
               (get_lead_info leads lid email, t1),
             serverCalls := st0.serverCalls + 1 }))
    ∧ (ttl ≤ t2 - t1 →
        crm_get_lead_info_once true ttl leads
          { cache := cacheSet st0.cache (get_cache_key_lead_info lid email)
              (get_lead_info leads lid email, t1),
            serverCalls := st0.serverCalls + 1 } lid email t2
        = (.ok (get_lead_info leads lid email),
           { cache := cacheSet
               (cacheSet st0.cache (get_cache_key_lead_info lid email)
                 (get_lead_info leads lid email, t1))
               (get_cache_key_lead_info lid email)
               (get_lead_info leads lid email, t2),
             serverCalls := st0.serverCalls + 2 })) := by
  refine ⟨?_, ?_, ?_⟩
  · unfold crm_get_lead_info_once
    simp [hv, hcold]
  · intro hin
    unfold crm_get_lead_info_once
    simp [hv, cacheLookup_cacheSet_self, is_cache_valid, hin]
  · intro hout
    have hnotin : ¬(t2 - t1 < ttl) := not_lt.mpr hout
    unfold crm_get_lead_info_once
    simp [hv, cacheLookup_cacheSet_self, is_cache_valid, hnotin]

/-- Witness for `crm_cache_ttl_spec`: lead `lead_001`, TTL 3600s, first
call at t=0, second call at t=10 (within TTL) and, separately, at t=3600
(expired). -/
theorem crm_cache_ttl_spec_witness :
    (crm_get_lead_info_once true 3600 initialLeads CRMToolState.init
        (some "lead_001") none 0
      = (.ok (get_lead_info initialLeads (some "lead_001") none),
         { cache := cacheSet CRMToolState.init.cache
             (get_cache_key_lead_info (some "lead_001") none)
             (get_lead_info initialLeads (some "lead_001") none, 0),
           serverCalls := CRMToolState.init.serverCalls + 1 }))
    ∧ (crm_get_lead_info_once true 3600 initialLeads
          { cache := cacheSet CRMToolState.init.cache
              (get_cache_key_lead_info (some "lead_001") none)
              (get_lead_info initialLeads (some "lead_001") none, 0),
            serverCalls := CRMToolState.init.serverCalls + 1 }
          (some "lead_001") none 10
        = (.ok (get_lead_info initialLeads (some "lead_001") none),
           { cache := cacheSet CRMToolState.init.cache
               (get_cache_key_lead_info (some "lead_001") none)
               (get_lead_info initialLeads (some "lead_001") none, 0),
             serverCalls := CRMToolState.init.serverCalls + 1 }))
    ∧ (crm_get_lead_info_once true 3600 initialLeads
          { cache := cacheSet CRMToolState.init.cache
              (get_cache_key_lead_info (some "lead_001") none)
              (get_lead_info initialLeads (some "lead_001") none, 0),
            serverCalls := CRMToolState.init.serverCalls + 1 }
          (some "lead_001") none 3600
        = (.ok (get_lead_info initialLeads (some "lead_001") none),
           { cache := cacheSet
               (cacheSet CRMToolState.init.cache
                 (get_cache_key_lead_info (some "lead_001") none)
                 (get_lead_info initialLeads (some "lead_001") none, 0))
               (get_cache_key_lead_info (some "lead_001") none)
               (get_lead_info initialLeads (some "lead_001") none, 3600),
             serverCalls := CRMToolState.init.serverCalls + 2 })) :=
  ⟨(crm_cache_ttl_spec 3600 initialLeads CRMToolState.init (some "lead_001") none 0 10
      (by decide) (by decide)).1,
   (crm_cache_ttl_spec 3600 initialLeads CRMToolState.init (some "lead_001") none 0 10
      (by decide) (by decide)).2.1 (by norm_num),
   (crm_cache_ttl_spec 3600 initialLeads CRMToolState.init (some "lead_001") none 0 3600
      (by decide) (by decide)).2.2 (by norm_num)⟩

/-! ### C4: unknown operation dispatch -/

/-- C4: for every tool name not registered with `MCPTools`, `call_tool`
fails with the tool-not-found `ValueError` — computed before any direct
server or HTTP invocation (zero provider calls, for every oracle, so never
a transport error) — and the message enumerates up to 5 name-similar known
operations (case-insensitive substring match in either direction); when no
similar name exists it lists up to 10 known operations, and when no
operations are registered it states that none are available. -/
theorem call_tool_unknown_spec :
    (∀ (R : Type) (tools : List MCPTool) (servers : List String)
       (direct : String → String → List (String × String) → Except String R)
       (http : String → List (String × String) → HttpResp R)
       (tv : ℚ) (tool_name : String) (params : List (String × String)),
      (∀ t ∈ tools, t.name ≠ tool_name) →
      call_tool tools servers direct http tv tool_name params
        = (.error (tool_not_found_msg (tools.map MCPTool.name) tool_name), 0))
    ∧ (∀ (available : List String) (tool_name : String),
        similar_tools available tool_name ≠ [] →
        tool_not_found_msg available tool_name
          = "Tool \x27" ++ tool_name ++ "\x27 não encontrada."
            ++ " Tools similares disponíveis: "
            ++ String.intercalate ", " ((similar_tools available tool_name).take 5)
        ∧ ((similar_tools available tool_name).take 5).length ≤ 5
        ∧ (∀ t ∈ (similar_tools available tool_name).take 5,
            t ∈ available
            ∧ (pyIn (pyLower tool_name) (pyLower t)
               || pyIn (pyLower t) (pyLower tool_name)) = true))
    ∧ (∀ (available : List String) (tool_name : String),
        similar_tools available tool_name = [] → available ≠ [] →
        tool_not_found_msg available tool_name
          = "Tool \x27" ++ tool_name ++ "\x27 não encontrada."
            ++ " Tools disponíveis: " ++ String.intercalate ", " (available.take 10)
        ∧ (available.take 10).length ≤ 10
        ∧ (∀ t ∈ available.take 10, t ∈ available))
    ∧ (∀ tool_name : String,
        tool_not_found_msg [] tool_name
          = "Tool \x27" ++ tool_name ++ "\x27 não encontrada."
            ++ " Nenhuma tool disponível.") := by
  refine ⟨?_, ?_, ?_, ?_⟩
  · intro R tools servers direct http tv tool_name params h
    have hf : tools.find? (fun t => t.name = tool_name) = none := by
      rw [List.find?_eq_none]
      intro t ht
      simp [h t ht]
    unfold call_tool
    rw [hf]
  · intro available tool_name hsim
    have h1 : (similar_tools available tool_name).isEmpty = false := by
      cases hc : similar_tools available tool_name
      · exact absurd hc hsim
      · rfl
    refine ⟨?_, ?_, ?_⟩
    · simp [tool_not_found_msg, h1]
    · rw [List.length_take]
      exact Nat.min_le_left _ _
    · intro t ht
      have hmem := List.mem_of_mem_take ht
      unfold similar_tools at hmem
      exact ⟨(List.mem_filter.mp hmem).1, (List.mem_filter.mp hmem).2⟩
  · intro available tool_name hsim hav
    have h1 : (similar_tools available tool_name).isEmpty = true := by
      rw [hsim]; rfl
    have h2 : available.isEmpty = false := by
      cases hc : available
      · exact absurd hc hav
      · rfl
    refine ⟨?_, ?_, ?_⟩
    · simp [tool_not_found_msg, h1, h2]
    · rw [List.length_take]
      exact Nat.min_le_left _ _
    · intro t ht
      exact List.mem_of_mem_take ht
  · intro tool_name
    rfl

/-- Witness for `call_tool_unknown_spec`: querying `lead_info` against a
registry holding only `get_lead_info` (a similar name), `zzz` against
`["crm"]` (no similar name), and `x` against an empty registry. -/
theorem call_tool_unknown_spec_witness :
    (call_tool [{ name := "get_lead_info", mcp_url := "http://localhost:8001" }] []
        (fun _ _ _ => (Except.error "down" : Except String Nat))
        (fun _ _ => HttpResp.success 7) 30 "lead_info" []
      = (.error (tool_not_found_msg ["get_lead_info"] "lead_info"), 0))
    ∧ (tool_not_found_msg ["get_lead_info"] "lead_info"
        = "Tool \x27" ++ "lead_info" ++ "\x27 não encontrada."
          ++ " Tools similares disponíveis: "
          ++ String.intercalate ", " ((similar_tools ["get_lead_info"] "lead_info").take 5)
      ∧ ((similar_tools ["get_lead_info"] "lead_info").take 5).length ≤ 5
      ∧ (∀ t ∈ (similar_tools ["get_lead_info"] "lead_info").take 5,
          t ∈ ["get_lead_info"]
          ∧ (pyIn (pyLower "lead_info") (pyLower t)
             || pyIn (pyLower t) (pyLower "lead_info")) = true))
    ∧ (tool_not_found_msg ["crm"] "zzz"
        = "Tool \x27" ++ "zzz" ++ "\x27 não encontrada."
          ++ " Tools disponíveis: " ++ String.intercalate ", " (["crm"].take 10)
      ∧ (["crm"].take 10).length ≤ 10
      ∧ (∀ t ∈ ["crm"].take 10, t ∈ ["crm"]))
    ∧ (tool_not_found_msg [] "x"
        = "Tool \x27" ++ "x" ++ "\x27 não encontrada." ++ " Nenhuma tool disponível.") :=
  ⟨call_tool_unknown_spec.1 Nat
      [{ name := "get_lead_info", mcp_url := "http://localhost:8001" }] []
      (fun _ _ _ => .error "down") (fun _ _ => .success 7) 30 "lead_info" []
      (by decide),
   call_tool_unknown_spec.2.1 ["get_lead_info"] "lead_info" (by decide),
   call_tool_unknown_spec.2.2.1 ["crm"] "zzz" (by decide) (by decide),
   call_tool_unknown_spec.2.2.2 "x"⟩

/-! ## MCPServerFactory (src/utils/mcp_server_factory.py) -/

/-- The fixed set of server names recognised by
`MCPServerFactory._create_server` (its `server_map` keys, in order). -/
def knownServerNames : List String :=
  ["mock_crm", "mock_catalog", "mock_analytics", "mock_ifood", "mock_restaurant",
   "mock_recommendation", "mock_contract", "mock_pricing", "mock_qualification"]

/-- The factory's class-level state: whether `_settings` is set, the
`_instances` cache, and a construction counter that gives every
constructed server instance a distinct identity (the `Nat`). -/
structure FactoryState where
  initialized : Bool := false
  instances : List (String × Nat) := []
  nextId : Nat := 0
deriving DecidableEq, Repr

/-- `f"{server_name}_{simulate_latency}"`; Python renders the bool as
`True`/`False`. -/
def factory_cache_key (server_name : String) (simulate_latency : Bool) : String :=
  server_name ++ "_" ++ (if simulate_latency then "True" else "False")

def instLookup (m : List (String × Nat)) (k : String) : Option Nat :=
  (m.find? (fun kv => kv.1 = k)).map (fun kv => kv.2)

/-- `MCPServerFactory.initialize` (lines 29-39): stores settings and
clears the instance cache. -/
def factory_init (st : FactoryState) : FactoryState :=
  { initialized := true, instances := [], nextId := st.nextId }

/-- `MCPServerFactory.get_server` (lines 41-76): `RuntimeError` when not
initialized; cache hit returns the cached instance unchanged; otherwise
`_create_server` either raises `ValueError` for an unknown name (before
anything is cached) or constructs a fresh instance which is then cached
under `f"{server_name}_{simulate_latency}"`. -/
def get_server (st : FactoryState) (server_name : String)
    (simulate_latency : Bool) : Except String (Nat × FactoryState) :=
  if !st.initialized then
    .error "MCPServerFactory not initialized. Call initialize() first."
  else
    match instLookup st.instances (factory_cache_key server_name simulate_latency) with
    | some inst => .ok (inst, st)
    | none =>
      if knownServerNames.contains server_name then
        .ok (st.nextId,
          { st with
              instances := st.instances
                ++ [(factory_cache_key server_name simulate_latency, st.nextId)],
              nextId := st.nextId + 1 })
      else
        .error ("Unknown server name: " ++ server_name ++ ". Available: "
          ++ String.intercalate ", " knownServerNames)

/-- `MCPServerFactory.clear_cache` (lines 162-167). -/
def clear_cache (st : FactoryState) : FactoryState :=
  { st with instances := [] }

/-- Cached instance identities are always below the construction counter
(true of every reachable factory state). -/
def FactoryState.WF (st : FactoryState) : Prop :=
  ∀ kv ∈ st.instances, kv.2 < st.nextId

theorem instLookup_append_self (xs : List (String × Nat)) (k : String) (v : Nat)
    (h : instLookup xs k = none) :
    instLookup (xs ++ [(k, v)]) k = some v := by
  induction xs with
  | nil => simp [instLookup, List.find?]
  | cons e tl ih =>
    by_cases he : e.1 = k
    · exfalso
      simp [instLookup, List.find?, he] at h
    · have h2 : instLookup tl k = none := by
        simpa [instLookup, List.find?, he] using h
      simpa [instLookup, List.find?, he] using ih h2

/-- Dissection of a successful `get_server`: the post-state is
initialized, its counter bounds the returned instance, and the instance
is cached under the key. -/
theorem get_server_ok_inv (st : FactoryState) (name : String) (lat : Bool)
    (inst : Nat) (st1 : FactoryState) (hWF : st.WF)
    (h : get_server st name lat = .ok (inst, st1)) :
    st1.initialized = true ∧ inst < st1.nextId
    ∧ instLookup st1.instances (factory_cache_key name lat) = some inst := by
  unfold get_server at h
  split at h
  · exact Except.noConfusion h
  · rename_i hinit
    have hi : st.initialized = true := by
      cases hb : st.initialized
      · rw [hb] at hinit; exact absurd rfl hinit
      · rfl
    split at h
    · rename_i i hl
      cases h
      refine ⟨hi, ?_, hl⟩
      unfold instLookup at hl
      cases hf : st.instances.find? (fun kv => kv.1 = factory_cache_key name lat) with
      | none => rw [hf] at hl; cases hl
      | some kv =>
        rw [hf] at hl
        have hkv := List.mem_of_find?_eq_some hf
        have := hWF kv hkv
        cases hl
        exact this
    · rename_i hl
      split at h
      · cases h
        exact ⟨hi, Nat.lt_succ_self _, instLookup_append_self _ _ _ hl⟩
      · exact Except.noConfusion h

/-! ### C9: registry constructs at most one instance per key -/

/-- C9: the factory registry constructs at most one server instance per
`(name, latencyMode)` key: after a successful `get_server`, repeating the
same `get_server` returns the identical cached instance with the state
(and hence the construction counter) unchanged; `get_server` for a name
outside the fixed known set fails with the unknown-server error and
caches nothing (the state is not altered — the error is raised before the
cache write); before `initialize` every `get_server` fails with the
not-initialized error; and after `clear_cache` a repeated `get_server`
performs a fresh construction, returning a new instance distinct from the
earlier one. -/
theorem factory_singleton_spec :
    (∀ (st : FactoryState) (name : String) (lat : Bool) (inst : Nat)
       (st1 : FactoryState), st.WF →
      get_server st name lat = .ok (inst, st1) →
      get_server st1 name lat = .ok (inst, st1))
    ∧ (∀ (st : FactoryState) (name : String) (lat : Bool),
        st.initialized = true →
        knownServerNames.contains name = false →
        instLookup st.instances (factory_cache_key name lat) = none →
        get_server st name lat
          = .error ("Unknown server name: " ++ name ++ ". Available: "
              ++ String.intercalate ", " knownServerNames))
    ∧ (∀ (st : FactoryState) (name : String) (lat : Bool),
        st.initialized = false →
        get_server st name lat
          = .error "MCPServerFactory not initialized. Call initialize() first.")
    ∧ (∀ (st : FactoryState) (name : String) (lat : Bool) (inst : Nat)
       (st1 : FactoryState), st.WF →
      get_server st name lat = .ok (inst, st1) →
      knownServerNames.contains name = true →
      get_server (clear_cache st1) name lat
        = .ok (st1.nextId,
            { initialized := st1.initialized,
              instances := [(factory_cache_key name lat, st1.nextId)],
              nextId := st1.nextId + 1 })
      ∧ st1.nextId ≠ inst) := by
  refine ⟨?_, ?_, ?_, ?_⟩
  · intro st name lat inst st1 hWF h
    obtain ⟨hi, _, hl⟩ := get_server_ok_inv st name lat inst st1 hWF h
    unfold get_server
    rw [hi, hl]
    rfl
  · intro st name lat hi hk hl
    unfold get_server
    rw [hi, hl]
    simp [hk]
    simpa using hk
  · intro st name lat hi
    unfold get_server
    rw [hi]
    rfl
  · intro st name lat inst st1 hWF h hk
    obtain ⟨hi, hlt, _⟩ := get_server_ok_inv st name lat inst st1 hWF h
    constructor
    · unfold get_server clear_cache
      rw [hi]
      simp [instLookup, List.find?, hk]
      simpa using hk
    · exact Nat.ne_of_gt hlt

/-- Witness for `factory_singleton_spec`: initialize, get `mock_crm`
twice, probe an unknown name, probe before initialization, and get again
after `clear_cache`. -/
theorem factory_singleton_spec_witness :
    (get_server
        { initialized := true,
          instances := [(factory_cache_key "mock_crm" false, 0)], nextId := 1 }
        "mock_crm" false
      = .ok (0, { initialized := true,
                  instances := [(factory_cache_key "mock_crm" false, 0)],
                  nextId := 1 }))
    ∧ (get_server (factory_init {}) "mock_warehouse" false
        = .error ("Unknown server name: " ++ "mock_warehouse" ++ ". Available: "
            ++ String.intercalate ", " knownServerNames))
    ∧ (get_server {} "mock_crm" false
        = .error "MCPServerFactory not initialized. Call initialize() first.")
    ∧ (get_server
          (clear_cache { initialized := true,
                         instances := [(factory_cache_key "mock_crm" false, 0)],
                         nextId := 1 })
          "mock_crm" false
        = .ok (1, { initialized := true,
                    instances := [(factory_cache_key "mock_crm" false, 1)],
                    nextId := 2 })
       ∧ (1 : Nat) ≠ 0) :=
  ⟨factory_singleton_spec.1 (factory_init {}) "mock_crm" false 0
      { initialized := true,
        instances := [(factory_cache_key "mock_crm" false, 0)], nextId := 1 }
      (by intro kv hkv; cases hkv) (by rfl),
   factory_singleton_spec.2.1 (factory_init {}) "mock_warehouse" false
      (by decide) (by decide) (by decide),
   factory_singleton_spec.2.2.1 {} "mock_crm" false (by decide),
   factory_singleton_spec.2.2.2 (factory_init {}) "mock_crm" false 0
      { initialized := true,
        instances := [(factory_cache_key "mock_crm" false, 0)], nextId := 1 }
      (by intro kv hkv; cases hkv) (by rfl) (by decide)⟩

/-! ## Conversation model (src/models/conversation.py) -/

/-- `MessageRole`. -/
inductive MessageRole
  | user | agent | system
deriving DecidableEq, Repr

/-- `ConversationStage`. -/
inductive ConversationStage
  | faq | lead_generation | qualification | presentation | negotiation
  | closing | completed
deriving DecidableEq, Repr

/-- The `.value` of a `ConversationStage` member. -/
def ConversationStage.value : ConversationStage → String
  | .faq => "faq"
  | .lead_generation => "lead_generation"
  | .qualification => "qualification"
  | .presentation => "presentation"
  | .negotiation => "negotiation"
  | .closing => "closing"
  | .completed => "completed"

/-- `Message`: a single conversation message.  The agent-response
message's metadata dict carries telemetry/node_history/status; only the
`status` entry is modelled (the rest is passed through opaquely from the
pipeline and never read back). -/
structure Message where
  role : MessageRole
  content : String
  timestamp : ℚ
  agent_id : Option String := none
  metadata_status : Option String := none
deriving DecidableEq, Repr

/-- The `Conversation.metadata` dict: a field of value `none`/`[]` is an
absent key. -/
structure ConvMetadata where
  started_at : Option ℚ := none
  stage_times : List (ConversationStage × ℚ) := []
  sale_closed : Option Bool := none
  closed_at : Option ℚ := none
  completed_at : Option ℚ := none
deriving DecidableEq, Repr

def stageTimesLookup (l : List (ConversationStage × ℚ)) (s : ConversationStage) :
    Option ℚ :=
  (l.find? (fun kv => kv.1 = s)).map (fun kv => kv.2)

/-- Dict assignment `stage_times[stage] = t`. -/
def stageTimesSet : List (ConversationStage × ℚ) → ConversationStage → ℚ →
    List (ConversationStage × ℚ)
  | [], s, t => [(s, t)]
  | e :: tl, s, t => if e.1 = s then (s, t) :: tl else e :: stageTimesSet tl s t

/-- `Conversation` (src/models/conversation.py). -/
structure Conversation where
  id : String
  lead_id : Option String := none
  messages : List Message := []
  current_stage : ConversationStage := .faq
  active_agent : Option String := none
  metadata : ConvMetadata := {}
  created_at : ℚ
  updated_at : ℚ
deriving DecidableEq, Repr

/-- `Conversation.add_message` (src/models/conversation.py, lines 61-76):
appends the message and sets `updated_at = datetime.utcnow()` (`now`). -/
def Conversation.add_message (c : Conversation) (role : MessageRole)
    (content : String) (agent_id : Option String)
    (metadata_status : Option String) (now : ℚ) : Conversation :=
  let msg : Message :=
    { role := role, content := content, timestamp := now,
      agent_id := agent_id, metadata_status := metadata_status }
  { c with messages := c.messages ++ [msg], updated_at := now }

/-- The stage/handler mutation performed by
`SwarmOrchestrator.process_message` (swarm_orchestrator.py, lines
195-196): plain attribute assignment, without touching `updated_at`. -/
def Conversation.setStageAndAgent (c : Conversation) (stage : ConversationStage)
    (agent : String) : Conversation :=
  { c with current_stage := stage, active_agent := some agent }

/-- The metadata mutation performed on a closed sale
(swarm_orchestrator.py, lines 207-208): also plain dict assignment,
without touching `updated_at`. -/
def Conversation.stampSaleClosed (c : Conversation) (now : ℚ) : Conversation :=
  { c with metadata :=
      { c.metadata with sale_closed := some true, closed_at := some now } }

/-! ## Swarm orchestrator (src/orchestrator/swarm_orchestrator.py) -/

/-- The `self.metrics` dict (lines 36-46); `defaultdict(int)`/`(list)`
entries are total functions with zero/empty defaults. -/
structure Metrics where
  conversations_total : Nat := 0
  conversations_by_stage : ConversationStage → Nat := fun _ => 0
  stage_transitions : String → Nat := fun _ => 0
  agents_usage : String → Nat := fun _ => 0
  conversion_by_stage : ConversationStage → Nat := fun _ => 0
  time_by_stage : ConversationStage → List ℚ := fun _ => []
  abandonment_points : String → Nat := fun _ => 0
  completed_conversations : Nat := 0
  closed_sales : Nat := 0

def bumpS (f : String → Nat) (k : String) : String → Nat :=
  fun x => if x = k then f x + 1 else f x

def bumpStage (f : ConversationStage → Nat) (k : ConversationStage) :
    ConversationStage → Nat :=
  fun x => if x = k then f x + 1 else f x

def appendTime (f : ConversationStage → List ℚ) (k : ConversationStage) (t : ℚ) :
    ConversationStage → List ℚ :=
  fun x => if x = k then f x ++ [t] else f x

/-- Orchestrator state: `self.conversations` and `self.metrics`. -/
structure Orchestrator where
  conversations : List (String × Conversation) := []
  metrics : Metrics := {}

def convLookup (l : List (String × Conversation)) (cid : String) :
    Option Conversation :=
  (l.find? (fun kv => kv.1 = cid)).map (fun kv => kv.2)

/-- Dict assignment `self.conversations[cid] = conv` (in Python the dict
holds the mutated object; here the final object is stored back). -/
def convStore : List (String × Conversation) → String → Conversation →
    List (String × Conversation)
  | [], cid, c => [(cid, c)]
  | e :: tl, cid, c => if e.1 = cid then (cid, c) :: tl else e :: convStore tl cid c

/-- The result of the pipeline collaborator `SwarmSalesAgent.process`:
response text, the `agents_used` telemetry and the `node_history` node
ids (plus pass-through fields the tracker echoes). -/
structure SwarmResult where
  response : String := ""
  agents_used : List String := []
  node_history : List String := []
  status : String := "completed"
deriving DecidableEq, Repr

/-- The `stage_mapping` dict with its `.get(last_agent, FAQ)` default
(lines 180-189). -/
def stage_mapping (agent : String) : ConversationStage :=
  if agent = "researcher" then .faq
  else if agent = "sales_agent" then .qualification
  else if agent = "qualification_agent" then .qualification
  else if agent = "presentation_agent" then .presentation
  else if agent = "negotiation_agent" then .negotiation
  else if agent = "closing_agent" then .closing
  else .faq

/-- `SwarmOrchestrator.create_conversation` (lines 50-97): the stored
conversation reflects the in-place metadata mutations (`started_at`,
`stage_times`); metrics count the new conversation and its FAQ entry.
`conversation_id` stands for the generated UUID, `now` for
`time.time()`. -/
def create_conversation (o : Orchestrator) (conversation_id : String)
    (lead_id : Option String) (initial_message : Option String) (now : ℚ) :
    Conversation × Orchestrator :=
  let conv : Conversation :=
    { id := conversation_id, lead_id := lead_id, current_stage := .faq,
      created_at := now, updated_at := now }
  let conv := match initial_message with
    | some m => conv.add_message .user m none none now
    | none => conv
  let conv := { conv with metadata :=
      { conv.metadata with started_at := some now, stage_times := [(.faq, now)] } }
  let metrics :=
    { o.metrics with conversations_total := o.metrics.conversations_total + 1,
                     conversations_by_stage := bumpStage o.metrics.conversations_by_stage .faq }
  (conv, { conversations := convStore o.conversations conversation_id conv, metrics := metrics })

/-- `SwarmOrchestrator._track_stage_transition` (lines 295-321). -/
def track_stage_transition (m : Metrics) (conv : Conversation)
    (old_stage new_stage : ConversationStage) (transition_start_time : ℚ) :
    Metrics × Conversation :=
  let key := old_stage.value ++ "->" ++ new_stage.value
  let m := { m with stage_transitions := bumpS m.stage_transitions key }
  let m := match stageTimesLookup conv.metadata.stage_times old_stage with
    | some t0 =>
      { m with time_by_stage := appendTime m.time_by_stage old_stage (transition_start_time - t0) }
    | none => m
  let st1 := stageTimesSet conv.metadata.stage_times new_stage transition_start_time
  let conv := { conv with metadata := { conv.metadata with stage_times := st1 } }
  let m := { m with conversion_by_stage := bumpStage m.conversion_by_stage new_stage,
                    conversations_by_stage := bumpStage m.conversations_by_stage new_stage }
  (m, conv)

/-- The result dict of `process_message`: either an error dict
(`{"error", "conversation_id"[, "error_type"]}`) or the success dict. -/
inductive ProcResult
  | err (error : String) (conversation_id : String) (error_type : Option String)
  | ok (conversation_id : String) (response : String) (agent_id : String)
      (stage : ConversationStage)
deriving DecidableEq, Repr

/-- Lines 134-241 of `process_message`, after the conversation has been
resolved or created: append the user message, delegate to the pipeline
(`pipeline` is its outcome; `.error` carries the exception's type name),
then derive the new stage from the trace and update metrics.  A pipeline
failure keeps the already-appended user message and touches no metrics. -/
def process_message_body (o : Orchestrator) (conv0 : Conversation)
    (message : String) (pipeline : Except String SwarmResult) (now : ℚ) :
    ProcResult × Orchestrator :=
  let conv := conv0.add_message .user message none none now
  let old_stage := conv.current_stage
  match pipeline with
  | .error etype =>
    (.err "Erro ao processar mensagem" conv.id (some etype),
     { o with conversations := convStore o.conversations conv.id conv })
  | .ok r =>
    let conv := if !r.response.isEmpty then
        conv.add_message .agent r.response (some "swarm") (some r.status) now
      else conv
    let last_agent := match r.node_history.getLast? with
      | some n => n
      | none => match r.agents_used.getLast? with
        | some a => a
        | none => "researcher"
    let new_stage := stage_mapping last_agent
    let (m1, conv) := if old_stage ≠ new_stage then
        track_stage_transition o.metrics conv old_stage new_stage now
      else (o.metrics, conv)
    let conv := conv.setStageAndAgent new_stage last_agent
    let m2 := r.agents_used.foldl
      (fun m a => { m with agents_usage := bumpS m.agents_usage a }) m1
    let (m3, conv) :=
      if new_stage = .closing then
        let m := { m2 with conversion_by_stage := bumpStage m2.conversion_by_stage .closing }
        if r.agents_used.contains "closing_agent" then
          ({ m with closed_sales := m.closed_sales + 1 }, conv.stampSaleClosed now)
        else (m, conv)
      else (m2, conv)
    let (m4, conv) :=
      if new_stage = .completed then
        ({ m3 with completed_conversations := m3.completed_conversations + 1 },
         { conv with metadata := { conv.metadata with completed_at := some now } })
      else (m3, conv)
    (.ok conv.id r.response
      (match r.agents_used.getLast? with | some a => a | none => "swarm")
      conv.current_stage,
     { conversations := convStore o.conversations conv.id conv, metrics := m4 })

/-- `SwarmOrchestrator.process_message` (lines 110-241).  The branch on
the supplied id is the Python truthiness test `if conversation_id:` — a
`None` **or empty-string** id takes the creation path (`fresh_id` stands
for the generated UUID); a truthy id that resolves to no conversation
returns the not-found error dict before anything is mutated. -/
def process_message (o : Orchestrator) (message : String)
    (conversation_id : Option String) (pipeline : Except String SwarmResult)
    (fresh_id : String) (now : ℚ) : ProcResult × Orchestrator :=
  if !strFalsy conversation_id then
    let cid := conversation_id.getD ""
    match convLookup o.conversations cid with
    | none => (.err "Conversation not found" cid none, o)
    | some conv => process_message_body o conv message pipeline now
  else
    let (conv, o1) := create_conversation o fresh_id none (some message) now
    process_message_body o1 conv message pipeline now

/-- The snapshot returned by `get_conversion_metrics` (lines 323-362),
restricted to the derived figures.  Rates are rationals standing for the
Python float arithmetic; each derived figure defaults to 0 (or an absent
dict entry, for per-stage figures) when its denominator is zero. -/
structure ConversionMetrics where
  total_conversations : Nat
  completed_conversations : Nat
  closed_sales : Nat
  sales_conversion_rate : ℚ
  abandonment_rate : ℚ
  conversion_rates_by_stage : ConversationStage → ℚ
  average_time_by_stage : ConversationStage → Option ℚ

def get_conversion_metrics (m : Metrics) : ConversionMetrics :=
  { total_conversations := m.conversations_total,
    completed_conversations := m.completed_conversations,
    closed_sales := m.closed_sales,
    sales_conversion_rate :=
      if m.conversations_total > 0 then
        ((m.closed_sales : ℚ) / (m.conversations_total : ℚ)) * 100
      else 0,
    abandonment_rate :=
      if m.conversations_total > 0 then
        (((m.conversations_total : ℚ) - (m.completed_conversations : ℚ))
          / (m.conversations_total : ℚ)) * 100
      else 0,
    conversion_rates_by_stage := fun s =>
      if m.conversations_total > 0 then
        ((m.conversion_by_stage s : ℚ) / (m.conversations_total : ℚ)) * 100
      else 0,
    average_time_by_stage := fun s =>
      match m.time_by_stage s with
      | [] => none
      | ts => some (ts.sum / (ts.length : ℚ)) }

/-! ### C1/C2: closed-sale counting on a conversation that reaches
`closing` twice -/

/-- A pipeline outcome whose trace ends at (and includes) the designated
closing handler. -/
def closingSwarmResult : SwarmResult :=
  { response := "Fechado!", agents_used := ["closing_agent"],
    node_history := ["closing_agent"] }

/-- One conversation created at t=0, then one `process_message` whose
trace closes the sale (t=1). -/
def bugRunAfter1 : Orchestrator :=
  (process_message (create_conversation {} "conv1" none none 0).2
    "quero comprar" (some "conv1") (.ok closingSwarmResult) "unused" 1).2

/-- The same conversation processed through a second closing trace
(t=2): `closing` is re-entered. -/
def bugRunAfter2 : Orchestrator :=
  (process_message bugRunAfter1
    "confirmo a compra" (some "conv1") (.ok closingSwarmResult) "unused" 2).2

/-- C1: evaluation of the code at the failing input.  The first closing
pass increments `closed_sales` and stamps `sale_closed`, as claimed; but
the guard `if "closing_agent" in agents_used` is not protected by any
per-conversation idempotency check (the `sale_closed` flag is set but
never consulted), so the second `process_message` that re-enters
`closing` increments the counter again: one conversation contributes two
increments. -/
theorem closed_sale_not_idempotent :
    bugRunAfter1.metrics.closed_sales = 1
    ∧ ((convLookup bugRunAfter1.conversations "conv1").map
        (fun c => c.metadata.sale_closed)) = some (some true)
    ∧ bugRunAfter2.metrics.closed_sales = 2
    ∧ bugRunAfter2.metrics.conversations_total = 1 := by
  decide

/-- C2: evaluation of the code at the failing input.  After the second
closing trace on the single conversation, `closed_sales = 2 >
total_conversations = 1` and the derived `sales_conversion_rate` is 200,
outside `[0, 100]`. -/
theorem conversion_rate_exceeds_bounds :
    ¬(bugRunAfter2.metrics.closed_sales ≤ bugRunAfter2.metrics.conversations_total)
    ∧ (get_conversion_metrics bugRunAfter2.metrics).sales_conversion_rate = 200
    ∧ ¬((get_conversion_metrics bugRunAfter2.metrics).sales_conversion_rate ≤ 100) := by
  have h1 : bugRunAfter2.metrics.conversations_total = 1 := by decide
  have h2 : bugRunAfter2.metrics.closed_sales = 2 := by decide
  refine ⟨?_, ?_, ?_⟩
  · rw [h1, h2]
    decide
  · simp [get_conversion_metrics, h1, h2]
    norm_num
  · simp [get_conversion_metrics, h1, h2]

/-! ### C8: `updated_at` under mutation -/

/-- A concrete conversation in stage `faq` last updated at t=5. -/
def convC8 : Conversation := { id := "c1", created_at := 5, updated_at := 5 }

/-- C8 (counterexample): the claim that `updated_at` strictly increases
with *every* mutation (including stage, handler and metadata changes)
fails on the code: the stage/handler assignment that
`process_message` performs (lines 195-196) mutates the conversation but
leaves `updated_at` unchanged, and so does the `sale_closed` metadata
stamp (lines 207-208). -/
theorem updated_at_stage_mutation_counterexample :
    (convC8.setStageAndAgent .closing "closing_agent").current_stage
      ≠ convC8.current_stage
    ∧ (convC8.setStageAndAgent .closing "closing_agent").updated_at
      = convC8.updated_at
    ∧ (convC8.stampSaleClosed 9).metadata ≠ convC8.metadata
    ∧ (convC8.stampSaleClosed 9).updated_at = convC8.updated_at := by
  decide

/-- C8 (amended): `updated_at` is modified only by `add_message`, which
sets it to the current clock reading — so appending a message at a clock
reading strictly beyond the stored `updated_at` strictly increases it —
while the stage/handler assignment and the metadata stamps leave
`updated_at` unchanged. -/
theorem updated_at_mutation_spec :
    (∀ (c : Conversation) (role : MessageRole) (content : String)
       (aid ms : Option String) (now : ℚ),
      (c.add_message role content aid ms now).updated_at = now)
    ∧ (∀ (c : Conversation) (role : MessageRole) (content : String)
       (aid ms : Option String) (now : ℚ), c.updated_at < now →
      c.updated_at < (c.add_message role content aid ms now).updated_at)
    ∧ (∀ (c : Conversation) (s : ConversationStage) (a : String),
      (c.setStageAndAgent s a).updated_at = c.updated_at)
    ∧ (∀ (c : Conversation) (now : ℚ),
      (c.stampSaleClosed now).updated_at = c.updated_at) :=
  ⟨fun _ _ _ _ _ _ => rfl,
   fun _ _ _ _ _ _ h => h,
   fun _ _ _ => rfl,
   fun _ _ => rfl⟩

/-- Witness for `updated_at_mutation_spec` at concrete inputs. -/
theorem updated_at_mutation_spec_witness :
    (convC8.add_message .user "oi" none none 7).updated_at = 7
    ∧ (convC8.updated_at < 7
       ∧ convC8.updated_at < (convC8.add_message .user "oi" none none 7).updated_at)
    ∧ (convC8.setStageAndAgent .qualification "sales_agent").updated_at
      = convC8.updated_at
    ∧ (convC8.stampSaleClosed 7).updated_at = convC8.updated_at :=
  ⟨updated_at_mutation_spec.1 convC8 .user "oi" none none 7,
   ⟨by decide,
    updated_at_mutation_spec.2.1 convC8 .user "oi" none none 7 (by decide)⟩,
   updated_at_mutation_spec.2.2.1 convC8 .qualification "sales_agent",
   updated_at_mutation_spec.2.2.2 convC8 7⟩

/-! ### C10: unknown conversation id -/

/-- C10 (counterexample): the claim that `process_message` with a
conversation id corresponding to no existing conversation returns the
not-found error and leaves all tracker state unchanged fails at the
empty-string id: `if conversation_id:` is a truthiness test, so for
`""` — which resolves to no conversation — the source takes the
creation branch instead: it builds a fresh conversation, appends the
user message (twice), invokes the pipeline and bumps the metrics. -/
theorem process_message_empty_id_counterexample :
    convLookup (({} : Orchestrator)).conversations "" = none
    ∧ (process_message {} "oi" (some "") (.ok ({} : SwarmResult)) "fresh" 0).1
        ≠ .err "Conversation not found" "" none
    ∧ (process_message {} "oi" (some "") (.ok ({} : SwarmResult)) "fresh" 0).2.metrics.conversations_total
        = 1
    ∧ ((convLookup (process_message {} "oi" (some "") (.ok ({} : SwarmResult)) "fresh" 0).2.conversations
          "fresh").map (fun c => c.messages.length)) = some 2 := by
  decide

/-- C10 (amended): `process_message` with a truthy (non-empty)
conversation id that resolves to no conversation returns the error dict
`{"error": "Conversation not found", "conversation_id": cid}` and leaves
the whole orchestrator state (the conversation map and every metrics
counter) unchanged; the result does not depend on the pipeline, which is
never invoked.  (A falsy id — `None` or `""` — instead takes the
conversation-creation path.) -/
theorem process_message_not_found (o : Orchestrator) (message : String)
    (cid : String) (pipeline : Except String SwarmResult) (fresh_id : String)
    (now : ℚ) (hne : cid.isEmpty = false)
    (h : convLookup o.conversations cid = none) :
    process_message o message (some cid) pipeline fresh_id now
      = (.err "Conversation not found" cid none, o) := by
  simp [process_message, strFalsy, hne, h]

/-- Witness for `process_message_not_found`: an orchestrator holding one
conversation, probed with a different (non-empty) id. -/
theorem process_message_not_found_witness :
    process_message (create_conversation {} "conv1" none none 0).2
      "oi" (some "conv999") (.ok closingSwarmResult) "unused" 1
      = (.err "Conversation not found" "conv999" none,
         (create_conversation {} "conv1" none none 0).2) :=
  process_message_not_found (create_conversation {} "conv1" none none 0).2
    "oi" "conv999" (.ok closingSwarmResult) "unused" 1 (by decide) (by decide)

end SalesAgents
